import Mathlib

/-!
Shallow embedding of the SkyrimAEUncapper patching core
(`src/RelocPatch.h`, `src/RelocPatch.cpp`).

Two flows are modelled:
* namespace `Cpp` — the translation unit `RelocPatch.cpp`: its own
  `HookType` enumeration, the `CodeSignature` descriptor, the signature
  table `kGameSignatures`, and the orchestrator `ApplyGamePatches`.
* namespace `Hdr` — the header `RelocPatch.h`: its `HookType`
  enumeration, `PatchSignature`, and the `RelocPatch` template with
  `Resolve`, `Apply`, `GetUIntPtr`, `GetRetAddr`, `operator T`.

External collaborators (the version database, the byte-pattern scanner,
`g_branchTrampoline`, `SafeWriteCall`/`SafeWriteJump`, `SafeMemSet`) are
modelled as oracles packaged in an environment structure; memory writes
performed through them are recorded as an explicit event trace.  A fatal
`ASSERT`/`HALT` is modelled as an `Option Fault` outcome: `some f` means
the process aborted at that point, and the event list of a result holds
exactly the writes issued before the abort.
-/

/-- The opcode for an x86 NOP (`const uint8_t kNop = 0x90` in both files). -/
def kNop : Nat := 0x90

/-- Wrap an integer into the unsigned 64-bit (`uintptr_t`/`size_t`) range. -/
def wrap64 (x : Int) : Nat := (x % ((2 : Int) ^ 64)).toNat

/-- Memory-write events issued through the external write collaborators. -/
inductive Event where
  | writeSlot (slot : Nat) (value : Nat)
  | writeResult (slot : Nat) (value : Nat)
  | write5Branch (addr : Nat) (target : Nat)
  | write6Branch (addr : Nat) (target : Nat)
  | write5Call (addr : Nat) (target : Nat)
  | write6Call (addr : Nat) (target : Nat)
  | writeDirectCall (addr : Nat) (target : Nat)
  | writeDirectJump (addr : Nat) (target : Nat)
  | memset (addr : Nat) (value : Nat) (count : Nat)
deriving DecidableEq, Repr

/-- Number of bytes of executable memory an event writes.  Slot writes go
to plugin-owned globals, not to the executable image, so they count 0; a
`memset` writes exactly its `count` bytes. -/
def Event.execBytes : Event → Nat
  | .writeSlot _ _ => 0
  | .writeResult _ _ => 0
  | .write5Branch _ _ => 5
  | .write6Branch _ _ => 6
  | .write5Call _ _ => 5
  | .write6Call _ _ => 6
  | .writeDirectCall _ _ => 5
  | .writeDirectJump _ _ => 5
  | .memset _ _ n => n

/-- Whether an event is one of the six branch/call hook write primitives. -/
def Event.isHookWrite : Event → Bool
  | .write5Branch _ _ => true
  | .write6Branch _ _ => true
  | .write5Call _ _ => true
  | .write6Call _ _ => true
  | .writeDirectCall _ _ => true
  | .writeDirectJump _ _ => true
  | _ => false

/-- Total executable bytes written by a trace. -/
def execBytesWritten (evs : List Event) : Nat :=
  (evs.map Event.execBytes).sum

/-- Fatal outcomes: each constructor models one `ASSERT`/`HALT` site. -/
inductive Fault where
  | resolveFailed
  | sizeAssert
  | hookAssert
  | trampolineAssert
  | resultAssert
  | writeFailed
  | halt
  | scanFailed
  | alreadyApplied
deriving DecidableEq, Repr

/-- Issue one hook-write primitive: the event is recorded (the primitive
was invoked) and a `false` success flag becomes a fatal `ASSERT` fault. -/
def writeStep (e : Event) (ok : Bool) : List Event × Option Fault :=
  ([e], if ok then none else some Fault.writeFailed)

namespace Cpp

/-- Hook-type enumeration of `RelocPatch.cpp`
(`enum t { None, Jump5, Jump6, DirectJump, Call5, Call6, DirectCall, Nop }`). -/
inductive HookType where
  | None
  | Jump5
  | Jump6
  | DirectJump
  | Call5
  | Call6
  | DirectCall
  | Nop
deriving DecidableEq, Repr

/-- Underlying integer of each enumerator, in declaration order. -/
def HookType.toRaw : HookType → Nat
  | .None => 0
  | .Jump5 => 1
  | .Jump6 => 2
  | .DirectJump => 3
  | .Call5 => 4
  | .Call6 => 5
  | .DirectCall => 6
  | .Nop => 7

/-- The `HookType::Size` switch of `RelocPatch.cpp`, on the enumeration:
`None`/`Nop` give 0, `Jump5`/`Call5`/`DirectCall`/`DirectJump` give 5,
`Jump6`/`Call6` give 6.  All eight enumerators are covered by a case, so
the `default: HALT` arm is unreachable here. -/
def HookType.Size : HookType → Nat
  | .None => 0
  | .Nop => 0
  | .Jump5 => 5
  | .Call5 => 5
  | .DirectCall => 5
  | .DirectJump => 5
  | .Jump6 => 6
  | .Call6 => 6

/-- The same switch over the raw underlying integer, which (as in C++)
may carry values outside the enumerator range; `none` models the
`default: HALT` arm. -/
def HookType.SizeRaw (type : Nat) : Option Nat :=
  if type = 0 ∨ type = 7 then some 0
  else if type = 1 ∨ type = 4 ∨ type = 6 ∨ type = 3 then some 5
  else if type = 2 ∨ type = 5 then some 6
  else none

/-- The `CodeSignature` descriptor of `RelocPatch.cpp`.  Null pointers
(`return_trampoline`, `result`) are modelled by `Option`; a pointer to a
plugin-owned global is modelled by a `Nat` slot identifier. -/
structure CodeSignature where
  name : String
  hook_type : HookType
  hook : Nat
  id : Nat
  patch_size : Nat
  offset : Int
  return_trampoline : Option Nat
  result : Option Nat
deriving DecidableEq, Repr

/-- The first (patch) `CodeSignature` constructor: `result` is null. -/
def CodeSignature.mkPatch (name : String) (hook_type : HookType) (hook : Nat)
    (id : Nat) (patch_size : Nat) (return_trampoline : Option Nat)
    (offset : Int) : CodeSignature :=
  { name := name, hook_type := hook_type, hook := hook, id := id,
    patch_size := patch_size, offset := offset,
    return_trampoline := return_trampoline, result := none }

/-- The second (game-object) `CodeSignature` constructor: `hook_type` is
`None`, `hook` is 0, `patch_size` is 0, `offset` is 0, the trampoline is
null and `result` points at the output global. -/
def CodeSignature.mkObject (name : String) (id : Nat) (result : Nat) :
    CodeSignature :=
  { name := name, hook_type := HookType.None, hook := 0, id := id,
    patch_size := 0, offset := 0,
    return_trampoline := none, result := some result }

/-- External collaborators of `ApplyGamePatches`: the version database
(`FindAddressById`, with 0 standing for the null "absent" pointer) and
the success flags of the six hook write primitives. -/
structure Env where
  db : Nat → Nat
  Write5Branch : Nat → Nat → Bool
  Write6Branch : Nat → Nat → Bool
  Write5Call : Nat → Nat → Bool
  Write6Call : Nat → Nat → Bool
  SafeWriteCall : Nat → Nat → Bool
  SafeWriteJump : Nat → Nat → Bool

/-- `real_address = reinterpret_cast<uintptr_t>(addr) + sig->offset`,
with `addr = db.FindAddressById(sig->id)`, as unsigned 64-bit arithmetic. -/
def realAddress (env : Env) (sig : CodeSignature) : Nat :=
  wrap64 ((env.db sig.id : Int) + sig.offset)

/-- The trampoline step of the loop body: if `sig->return_trampoline` is
non-null, assert the hook type is neither `None` nor `Nop` and store the
return address into the trampoline slot. -/
def trampolineStep (sig : CodeSignature) (return_address : Nat) :
    List Event × Option Fault :=
  match sig.return_trampoline with
  | none => ([], none)
  | some slot =>
    if sig.hook_type = HookType.None then ([], some Fault.trampolineAssert)
    else if sig.hook_type = HookType.Nop then ([], some Fault.trampolineAssert)
    else ([Event.writeSlot slot return_address], none)

/-- The `switch (sig->hook_type)` installing the hook or the result. -/
def installHook (env : Env) (sig : CodeSignature) (real_address : Nat) :
    List Event × Option Fault :=
  match sig.hook_type with
  | HookType.None =>
    match sig.result with
    | none => ([], some Fault.resultAssert)
    | some slot => ([Event.writeResult slot real_address], none)
  | HookType.Jump5 =>
    writeStep (Event.write5Branch real_address sig.hook)
      (env.Write5Branch real_address sig.hook)
  | HookType.Jump6 =>
    writeStep (Event.write6Branch real_address sig.hook)
      (env.Write6Branch real_address sig.hook)
  | HookType.Call5 =>
    writeStep (Event.write5Call real_address sig.hook)
      (env.Write5Call real_address sig.hook)
  | HookType.Call6 =>
    writeStep (Event.write6Call real_address sig.hook)
      (env.Write6Call real_address sig.hook)
  | HookType.DirectCall =>
    writeStep (Event.writeDirectCall real_address sig.hook)
      (env.SafeWriteCall real_address sig.hook)
  | HookType.DirectJump =>
    writeStep (Event.writeDirectJump real_address sig.hook)
      (env.SafeWriteJump real_address sig.hook)
  | HookType.Nop => ([], none)

/-- One iteration of the `ApplyGamePatches` loop for one signature:
resolve through the database (`ASSERT(addr)`), compute `real_address`,
`hook_size` and `return_address`, check `ASSERT(hook_size <= patch_size)`
and `ASSERT(!(sig->hook) == (hook_type == None || hook_type == Nop))`,
fill the return trampoline, install the hook/result, then overwrite the
remaining `patch_size - hook_size` bytes with NOPs. -/
def applySig (env : Env) (sig : CodeSignature) : List Event × Option Fault :=
  let addr := env.db sig.id
  if addr = 0 then ([], some Fault.resolveFailed)
  else
    let real_address := realAddress env sig
    let hook_size := HookType.Size sig.hook_type
    let return_address := (real_address + hook_size) % 2 ^ 64
    if hook_size ≤ sig.patch_size then
      if (sig.hook = 0) ↔
          (sig.hook_type = HookType.None ∨ sig.hook_type = HookType.Nop) then
        match trampolineStep sig return_address with
        | (tevs, some f) => (tevs, some f)
        | (tevs, none) =>
          match installHook env sig real_address with
          | (hevs, some f) => (tevs ++ hevs, some f)
          | (hevs, none) =>
            (tevs ++ hevs ++
              [Event.memset return_address kNop (sig.patch_size - hook_size)],
             none)
      else ([], some Fault.hookAssert)
    else ([], some Fault.sizeAssert)

/-- The `ApplyGamePatches` loop over a descriptor table: signatures are
processed in order and the first fault aborts, keeping the events issued
so far. -/
def applyList (env : Env) : List CodeSignature → List Event × Option Fault
  | [] => ([], none)
  | sig :: rest =>
    match applySig env sig with
    | (evs, some f) => (evs, some f)
    | (evs, none) =>
      match applyList env rest with
      | (evs2, f2) => (evs ++ evs2, f2)

/-- Slot identifiers of the plugin-owned globals written by the table
(the five `extern "C"` return trampolines and the five result globals). -/
def ImprovePlayerSkillPoints_ReturnTrampoline : Nat := 0

def ImproveAttributeWhenLevelUp_ReturnTrampoline : Nat := 1

def GetEffectiveSkillLevel_ReturnTrampoline : Nat := 2

def DisplayTrueSkillLevel_ReturnTrampoline : Nat := 3

def HideLegendaryButton_ReturnTrampoline : Nat := 4

def playerObject : Nat := 5

def gameSettings : Nat := 6

def GetLevel_Entry : Nat := 7

def GetBaseActorValue_Entry : Nat := 8

def GetSkillCoefficients_Entry : Nat := 9

/-- Addresses of the replacement-code functions the table's hooks point
at.  They live in other translation units, so they are parameters of the
model; a C++ function's address is never null. -/
structure Hooks where
  ModifyPerkPool_Wrapper : Nat
  SkillCapPatch_Wrapper : Nat
  HideLegendaryButton_Wrapper : Nat
  ImprovePlayerSkillPoints_Original : Nat
  ImprovePlayerSkillPoints_Hook : Nat
  ImproveLevelExpBySkillLevel_Wrapper : Nat
  ImproveAttributeWhenLevelUp_Hook : Nat
  GetEffectiveSkillLevel_Hook : Nat
  DisplayTrueSkillLevel_Hook : Nat

/-- All nine replacement-code addresses are non-null. -/
def Hooks.NonNull (h : Hooks) : Prop :=
  h.ModifyPerkPool_Wrapper ≠ 0 ∧ h.SkillCapPatch_Wrapper ≠ 0 ∧
  h.HideLegendaryButton_Wrapper ≠ 0 ∧
  h.ImprovePlayerSkillPoints_Original ≠ 0 ∧
  h.ImprovePlayerSkillPoints_Hook ≠ 0 ∧
  h.ImproveLevelExpBySkillLevel_Wrapper ≠ 0 ∧
  h.ImproveAttributeWhenLevelUp_Hook ≠ 0 ∧
  h.GetEffectiveSkillLevel_Hook ≠ 0 ∧ h.DisplayTrueSkillLevel_Hook ≠ 0

def kThePlayer_ObjectSig : CodeSignature :=
  CodeSignature.mkObject "g_thePlayer" 403521 playerObject

def kGameSettingCollection_ObjectSig : CodeSignature :=
  CodeSignature.mkObject "g_gameSettingCollection" 400782 gameSettings

def kGetLevel_FunctionSig : CodeSignature :=
  CodeSignature.mkObject "GetLevel" 37334 GetLevel_Entry

def kGetBaseActorValue_FunctionSig : CodeSignature :=
  CodeSignature.mkObject "GetBaseActorValue" 38464 GetBaseActorValue_Entry

def kGetSkillCoefficients_FunctionSig : CodeSignature :=
  CodeSignature.mkObject "GetSkillCoefficients" 27244 GetSkillCoefficients_Entry

def kModifyPerkPool_PatchSig (h : Hooks) : CodeSignature :=
  CodeSignature.mkPatch "ModifyPerkPool" HookType.Jump6
    h.ModifyPerkPool_Wrapper 52538 7 none 0x62

def kSkillCapPatch_PatchSig (h : Hooks) : CodeSignature :=
  CodeSignature.mkPatch "SkillCapPatch" HookType.Call6
    h.SkillCapPatch_Wrapper 41561 9 none 0x76

def kHideLegendaryButton_PatchSig (h : Hooks) : CodeSignature :=
  CodeSignature.mkPatch "HideLegendaryButton" HookType.Jump6
    h.HideLegendaryButton_Wrapper 52527 0x1e
    (some HideLegendaryButton_ReturnTrampoline) 0x153

def kImproveSkillLevel_PatchSig (h : Hooks) : CodeSignature :=
  CodeSignature.mkPatch "ImproveSkillLevel" HookType.Call5
    h.ImprovePlayerSkillPoints_Original 41562 5 none 0x98

def kImprovePlayerSkillPoints_PatchSig (h : Hooks) : CodeSignature :=
  CodeSignature.mkPatch "ImprovePlayerSkillPoints" HookType.Jump6
    h.ImprovePlayerSkillPoints_Hook 41561 6
    (some ImprovePlayerSkillPoints_ReturnTrampoline) 0

def kImproveLevelExpBySkillLevel_PatchSig (h : Hooks) : CodeSignature :=
  CodeSignature.mkPatch "ImproveLevelExpBySkillLevel" HookType.Call6
    h.ImproveLevelExpBySkillLevel_Wrapper 41561 8 none 0x2D7

def kImproveAttributeWhenLevelUp_PatchSig (h : Hooks) : CodeSignature :=
  CodeSignature.mkPatch "ImproveAttributeWhenLevelUp" HookType.Jump6
    h.ImproveAttributeWhenLevelUp_Hook 51917 6
    (some ImproveAttributeWhenLevelUp_ReturnTrampoline) 0

/-- Defined in the file but not listed in `kGameSignatures`. -/
def kAllowAllAttrImproveCarryWeight_PatchSig : CodeSignature :=
  CodeSignature.mkPatch "AllowAllAttrImproveCarryWeight" HookType.Nop
    0 51917 2 none 0x9a

def kGetEffectiveSkillLevel_PatchSig (h : Hooks) : CodeSignature :=
  CodeSignature.mkPatch "GetEffectiveSkillLevel" HookType.Jump6
    h.GetEffectiveSkillLevel_Hook 38462 6
    (some GetEffectiveSkillLevel_ReturnTrampoline) 0

def kDisplayTrueSkillLevel_PatchSig (h : Hooks) : CodeSignature :=
  CodeSignature.mkPatch "DisplayTrueSkillLevel" HookType.Jump6
    h.DisplayTrueSkillLevel_Hook 52525 7
    (some DisplayTrueSkillLevel_ReturnTrampoline) 0x120

/-- The `kGameSignatures` table, in source order.  (The source defines
`kAllowAllAttrImproveCarryWeight_PatchSig` but does not list it.) -/
def kGameSignatures (h : Hooks) : List CodeSignature :=
  [kThePlayer_ObjectSig,
   kGameSettingCollection_ObjectSig,
   kGetLevel_FunctionSig,
   kGetBaseActorValue_FunctionSig,
   kGetSkillCoefficients_FunctionSig,
   kModifyPerkPool_PatchSig h,
   kSkillCapPatch_PatchSig h,
   kHideLegendaryButton_PatchSig h,
   kImproveSkillLevel_PatchSig h,
   kImprovePlayerSkillPoints_PatchSig h,
   kImproveLevelExpBySkillLevel_PatchSig h,
   kImproveAttributeWhenLevelUp_PatchSig h,
   kGetEffectiveSkillLevel_PatchSig h,
   kDisplayTrueSkillLevel_PatchSig h]

/-- `ApplyGamePatches`: run the loop over the whole table. -/
def ApplyGamePatches (env : Env) (h : Hooks) : List Event × Option Fault :=
  applyList env (kGameSignatures h)

end Cpp

namespace Hdr

/-- Patch sizes for direct hooks (`RelocPatch.h`). -/
def kDirectCallPatchSize : Nat := 5

/-- Patch size for the direct jump hook (`RelocPatch.h`). -/
def kDirectJumpPatchSize : Nat := 5

/-- Hook-type enumeration of `RelocPatch.h`
(`enum t { None, Branch5, Branch6, Call5, Call6, DirectCall, DirectJump, Nop }`). -/
inductive HookType where
  | None
  | Branch5
  | Branch6
  | Call5
  | Call6
  | DirectCall
  | DirectJump
  | Nop
deriving DecidableEq, Repr

/-- Underlying integer of each enumerator, in declaration order. -/
def HookType.toRaw : HookType → Nat
  | .None => 0
  | .Branch5 => 1
  | .Branch6 => 2
  | .Call5 => 3
  | .Call6 => 4
  | .DirectCall => 5
  | .DirectJump => 6
  | .Nop => 7

/-- The `HookType::Size` switch of `RelocPatch.h`.  Its cases cover
`Nop`, `Branch5`/`Call5`, `Branch6`/`Call6`, `DirectCall`, `DirectJump`
— but not `None`, which therefore falls into the `default: HALT` arm,
modelled as `none`. -/
def HookType.Size : HookType → Option Nat
  | .Nop => some 0
  | .Branch5 => some 5
  | .Call5 => some 5
  | .Branch6 => some 6
  | .Call6 => some 6
  | .DirectCall => some kDirectCallPatchSize
  | .DirectJump => some kDirectJumpPatchSize
  | .None => none

/-- The same switch over the raw underlying integer. -/
def HookType.SizeRaw (type : Nat) : Option Nat :=
  if type = 7 then some 0
  else if type = 1 ∨ type = 3 then some 5
  else if type = 2 ∨ type = 4 then some 6
  else if type = 5 then some kDirectCallPatchSize
  else if type = 6 then some kDirectJumpPatchSize
  else none

/-- The `PatchSignature` descriptor of `RelocPatch.h`. -/
structure PatchSignature where
  name : String
  hook_type : HookType
  sig : String
  patch_size : Nat
  hook_offset : Int
  indirect_offset : Int
  instr_size : Nat
deriving DecidableEq, Repr

/-- External collaborators of the `RelocPatch` template: the pattern
scanner (`RVAScan(...).GetUIntPtr()`, with 0 standing for "not found")
and the success flags of the hook write primitives. -/
structure Env where
  RVAScan : String → String → Int → Int → Nat → Nat
  Write5Branch : Nat → Nat → Bool
  Write6Branch : Nat → Nat → Bool
  Write5Call : Nat → Nat → Bool
  Write6Call : Nat → Nat → Bool
  SafeWriteCall : Nat → Nat → Bool
  SafeWriteJump : Nat → Nat → Bool

/-- The mutable state of a `RelocPatch<T>` object: the descriptor plus
the member initializers `bool hook_done = false` and
`uintptr_t real_address = 0`. -/
structure RelocPatch where
  sig : PatchSignature
  hook_done : Bool
  real_address : Nat
deriving DecidableEq, Repr

/-- The `RelocPatch(const PatchSignature*)` constructor: `hook_done` and
`real_address` keep their zero member initializers. -/
def RelocPatch.init (sig : PatchSignature) : RelocPatch :=
  { sig := sig, hook_done := false, real_address := 0 }

/-- Result of a call to `Resolve`: the post state, how many times the
scanner collaborator was consulted during the call, and whether the
`ASSERT(real_address)` fault fired. -/
structure ResolveResult where
  state : RelocPatch
  consults : Nat
  fault : Option Fault
deriving DecidableEq, Repr

/-- `RelocPatch::Resolve`: a no-op when `real_address` is already
non-zero; otherwise scan, cache the scanned address, and
`ASSERT(real_address)`. -/
def RelocPatch.Resolve (env : Env) (p : RelocPatch) : ResolveResult :=
  if p.real_address ≠ 0 then { state := p, consults := 0, fault := none }
  else
    let addr := env.RVAScan p.sig.name p.sig.sig p.sig.hook_offset
      p.sig.indirect_offset p.sig.instr_size
    let p1 : RelocPatch := { p with real_address := addr }
    if addr = 0 then { state := p1, consults := 1, fault := some Fault.scanFailed }
    else { state := p1, consults := 1, fault := none }

/-- Result of a value-returning member of `RelocPatch` (`operator*`,
`operator->`, `GetUIntPtr`, `GetRetAddr`). -/
structure ValueResult where
  state : RelocPatch
  value : Nat
  consults : Nat
  fault : Option Fault
deriving DecidableEq, Repr

/-- `operator T()`: returns the cached `real_address` reinterpreted,
without calling `Resolve` — it does not touch the environment. -/
def RelocPatch.operatorT (p : RelocPatch) : Nat := p.real_address

/-- `operator*`: `Resolve`, then dereference `real_address`; the value
reported here is the address the returned reference points at. -/
def RelocPatch.derefStar (env : Env) (p : RelocPatch) : ValueResult :=
  let r := p.Resolve env
  { state := r.state, value := r.state.real_address,
    consults := r.consults, fault := r.fault }

/-- `operator->`: `Resolve`, then return `real_address` as a pointer. -/
def RelocPatch.arrow (env : Env) (p : RelocPatch) : ValueResult :=
  let r := p.Resolve env
  { state := r.state, value := r.state.real_address,
    consults := r.consults, fault := r.fault }

/-- `GetUIntPtr`: `Resolve`, then return `real_address`. -/
def RelocPatch.GetUIntPtr (env : Env) (p : RelocPatch) : ValueResult :=
  let r := p.Resolve env
  { state := r.state, value := r.state.real_address,
    consults := r.consults, fault := r.fault }

/-- `GetRetAddr`: `Resolve`, then return
`real_address + HookType::Size(sig->hook_type)` (which HALTs for a
hook type outside the `Size` cases). -/
def RelocPatch.GetRetAddr (env : Env) (p : RelocPatch) : ValueResult :=
  let r := p.Resolve env
  match r.fault with
  | some f => { state := r.state, value := 0, consults := r.consults,
                fault := some f }
  | none =>
    match HookType.Size p.sig.hook_type with
    | none => { state := r.state, value := 0, consults := r.consults,
                fault := some Fault.halt }
    | some hs => { state := r.state,
                   value := (r.state.real_address + hs) % 2 ^ 64,
                   consults := r.consults, fault := none }

/-- The `switch(sig->hook_type)` of `RelocPatch::Apply`; `None` falls to
the `default: HALT` arm (unreachable, because `Size` already HALTed). -/
def installHookH (env : Env) (ht : HookType) (real_address target : Nat) :
    List Event × Option Fault :=
  match ht with
  | HookType.Branch5 =>
    writeStep (Event.write5Branch real_address target)
      (env.Write5Branch real_address target)
  | HookType.Branch6 =>
    writeStep (Event.write6Branch real_address target)
      (env.Write6Branch real_address target)
  | HookType.Call5 =>
    writeStep (Event.write5Call real_address target)
      (env.Write5Call real_address target)
  | HookType.Call6 =>
    writeStep (Event.write6Call real_address target)
      (env.Write6Call real_address target)
  | HookType.DirectCall =>
    writeStep (Event.writeDirectCall real_address target)
      (env.SafeWriteCall real_address target)
  | HookType.DirectJump =>
    writeStep (Event.writeDirectJump real_address target)
      (env.SafeWriteJump real_address target)
  | HookType.Nop => ([], none)
  | HookType.None => ([], some Fault.halt)

/-- Result of a call to `RelocPatch::Apply`. -/
structure ApplyResult where
  state : RelocPatch
  events : List Event
  consults : Nat
  fault : Option Fault
deriving DecidableEq, Repr

/-- `RelocPatch::Apply`: `Resolve`; compute
`hook_size = HookType::Size(sig->hook_type)` (HALTs for `None`);
`ASSERT(!hook_done)`; `ASSERT(hook_size <= patch_size)`; install the
hook through the write primitives; `SafeMemSet(GetRetAddr(), kNop,
patch_size - hook_size)`; finally set `hook_done`. -/
def RelocPatch.Apply (env : Env) (p : RelocPatch) (target : Nat) : ApplyResult :=
  let r := p.Resolve env
  match r.fault with
  | some f => { state := r.state, events := [], consults := r.consults,
                fault := some f }
  | none =>
    match HookType.Size r.state.sig.hook_type with
    | none => { state := r.state, events := [], consults := r.consults,
                fault := some Fault.halt }
    | some hook_size =>
      if r.state.hook_done then
        { state := r.state, events := [], consults := r.consults,
          fault := some Fault.alreadyApplied }
      else if hook_size ≤ r.state.sig.patch_size then
        match installHookH env r.state.sig.hook_type r.state.real_address
            target with
        | (hevs, some f) =>
          { state := r.state, events := hevs, consults := r.consults,
            fault := some f }
        | (hevs, none) =>
          { state := { r.state with hook_done := true },
            events := hevs ++
              [Event.memset ((r.state.real_address + hook_size) % 2 ^ 64)
                kNop (r.state.sig.patch_size - hook_size)],
            consults := r.consults, fault := none }
      else
        { state := r.state, events := [], consults := r.consults,
          fault := some Fault.sizeAssert }

end Hdr

/-! Section: Helper lemmas -/

theorem wrap64_lt (x : Int) : wrap64 x < 2 ^ 64 := by
  unfold wrap64
  have h1 : (2 : Int) ^ 64 = 18446744073709551616 := by norm_num
  have h2 : (2 : Nat) ^ 64 = 18446744073709551616 := by norm_num
  rw [h1, h2]
  omega

theorem wrap64_natCast (n : Nat) : wrap64 (n : Int) = n % 2 ^ 64 := by
  unfold wrap64
  have h1 : (2 : Int) ^ 64 = 18446744073709551616 := by norm_num
  have h2 : (2 : Nat) ^ 64 = 18446744073709551616 := by norm_num
  rw [h1, h2]
  omega

/-! Section: Claim C2 (corrected) -/

/-- Footprint table as the spec words it, for the `RelocPatch.cpp`
enumeration: 0 for `None` and `Nop`, 5 for the 5-byte branch/call and
direct encodings, 6 for the 6-byte branch/call encodings. -/
def specFootprint : Cpp.HookType → Nat
  | .None => 0
  | .Nop => 0
  | .Jump5 => 5
  | .Call5 => 5
  | .DirectCall => 5
  | .DirectJump => 5
  | .Jump6 => 6
  | .Call6 => 6

/-- Footprint table as the spec words it, for the `RelocPatch.h`
enumeration. -/
def specFootprintH : Hdr.HookType → Nat
  | .None => 0
  | .Nop => 0
  | .Branch5 => 5
  | .Call5 => 5
  | .DirectCall => 5
  | .DirectJump => 5
  | .Branch6 => 6
  | .Call6 => 6

/-- Claim C2 counterexample: the claim says `Footprint` returns 0 for the
`None` tag of the closed set and faults only outside it, but in the
`RelocPatch.h` variant the `Size` switch has no `None` case, so `None`
falls into the fatal `default: HALT` arm instead of returning 0. -/
theorem c2_footprint_counterexample :
    Hdr.HookType.Size Hdr.HookType.None = none ∧
    Hdr.HookType.Size Hdr.HookType.None ≠ some (specFootprintH Hdr.HookType.None) := by
  decide

/-- Claim C2 (amended): in the `RelocPatch.cpp` variant, `HookType::Size`
is total on the closed tag set and equals the per-tag footprint table,
and the raw switch faults exactly for integers outside the eight
enumerators; in the `RelocPatch.h` variant the same holds except that
the `None` tag also faults (it falls into the `default: HALT` arm), so
its raw switch faults exactly for 0 and for integers outside the set. -/
theorem c2_footprint_amended :
    (∀ t : Cpp.HookType, Cpp.HookType.Size t = specFootprint t) ∧
    (∀ t : Cpp.HookType, Cpp.HookType.SizeRaw t.toRaw = some (Cpp.HookType.Size t)) ∧
    (∀ n : Nat, Cpp.HookType.SizeRaw n = none ↔ 8 ≤ n) ∧
    (∀ t : Hdr.HookType, t ≠ Hdr.HookType.None →
      Hdr.HookType.Size t = some (specFootprintH t)) ∧
    (∀ t : Hdr.HookType, Hdr.HookType.SizeRaw t.toRaw = Hdr.HookType.Size t) ∧
    (∀ n : Nat, Hdr.HookType.SizeRaw n = none ↔ n = 0 ∨ 8 ≤ n) := by
  refine ⟨?_, ?_, ?_, ?_, ?_, ?_⟩
  · intro t; cases t <;> rfl
  · intro t; cases t <;> rfl
  · intro n
    unfold Cpp.HookType.SizeRaw
    split_ifs with h1 h2 h3 <;> simp <;> omega
  · intro t ht; cases t <;> first | rfl | exact absurd rfl ht
  · intro t; cases t <;> rfl
  · intro n
    unfold Hdr.HookType.SizeRaw
    split_ifs with h1 h2 h3 h4 h5 <;>
      simp [Hdr.kDirectCallPatchSize, Hdr.kDirectJumpPatchSize] <;> omega

/-- Claim C2 witness: the amended theorem applied at the concrete tag
`Call6` of the header variant, discharging its hypothesis. -/
theorem c2_footprint_amended_witness :
    Hdr.HookType.Size Hdr.HookType.Call6 = some (specFootprintH Hdr.HookType.Call6) :=
  c2_footprint_amended.2.2.2.1 Hdr.HookType.Call6 (by decide)

/-! Section: Claim C10 and `Resolve` helpers -/

theorem Resolve_init_consults (env : Hdr.Env) (sig : Hdr.PatchSignature) :
    (Hdr.RelocPatch.Resolve env (Hdr.RelocPatch.init sig)).consults = 1 := by
  unfold Hdr.RelocPatch.Resolve Hdr.RelocPatch.init
  simp only [ne_eq]
  split
  · simp_all
  · split <;> rfl

theorem GetRetAddr_consults (env : Hdr.Env) (p : Hdr.RelocPatch) :
    (Hdr.RelocPatch.GetRetAddr env p).consults = (p.Resolve env).consults := by
  unfold Hdr.RelocPatch.GetRetAddr
  rcases hf : (p.Resolve env).fault with _ | f
  · rcases hs : Hdr.HookType.Size p.sig.hook_type with _ | n <;> simp [hf, hs]
  · simp [hf]

theorem Apply_consults (env : Hdr.Env) (p : Hdr.RelocPatch) (target : Nat) :
    (Hdr.RelocPatch.Apply env p target).consults = (p.Resolve env).consults := by
  unfold Hdr.RelocPatch.Apply
  rcases hf : (p.Resolve env).fault with _ | f
  · rcases hs : Hdr.HookType.Size (p.Resolve env).state.sig.hook_type with _ | n
    · simp [hf, hs]
    · simp only [hf, hs]
      split
      · rfl
      · split
        · rcases hi : Hdr.installHookH env (p.Resolve env).state.sig.hook_type
            (p.Resolve env).state.real_address target with ⟨hevs, _ | f2⟩ <;> simp [hi]
        · rfl
  · simp [hf]

/-- Claim C10: `operator T()` returns the raw cached address and never
invokes `Resolve` (its definition does not even take the scan
environment), so on a never-resolved `RelocPatch` it returns the
zero-initialized cached address 0; by contrast `operator*`,
`operator->`, `GetUIntPtr`, `GetRetAddr` and `Apply` all invoke
`Resolve`, which on a never-resolved patch consults the scanner once. -/
theorem c10_operatorT_never_resolves :
    (∀ p : Hdr.RelocPatch, Hdr.RelocPatch.operatorT p = p.real_address) ∧
    (∀ sig : Hdr.PatchSignature,
      Hdr.RelocPatch.operatorT (Hdr.RelocPatch.init sig) = 0) ∧
    (∀ (env : Hdr.Env) (sig : Hdr.PatchSignature),
      (Hdr.RelocPatch.derefStar env (Hdr.RelocPatch.init sig)).consults = 1) ∧
    (∀ (env : Hdr.Env) (sig : Hdr.PatchSignature),
      (Hdr.RelocPatch.arrow env (Hdr.RelocPatch.init sig)).consults = 1) ∧
    (∀ (env : Hdr.Env) (sig : Hdr.PatchSignature),
      (Hdr.RelocPatch.GetUIntPtr env (Hdr.RelocPatch.init sig)).consults = 1) ∧
    (∀ (env : Hdr.Env) (sig : Hdr.PatchSignature),
      (Hdr.RelocPatch.GetRetAddr env (Hdr.RelocPatch.init sig)).consults = 1) ∧
    (∀ (env : Hdr.Env) (sig : Hdr.PatchSignature) (target : Nat),
      (Hdr.RelocPatch.Apply env (Hdr.RelocPatch.init sig) target).consults = 1) := by
  refine ⟨fun p => rfl, fun sig => rfl, ?_, ?_, ?_, ?_, ?_⟩
  · intro env sig
    unfold Hdr.RelocPatch.derefStar
    simp only [Resolve_init_consults]
  · intro env sig
    unfold Hdr.RelocPatch.arrow
    simp only [Resolve_init_consults]
  · intro env sig
    unfold Hdr.RelocPatch.GetUIntPtr
    simp only [Resolve_init_consults]
  · intro env sig
    rw [GetRetAddr_consults, Resolve_init_consults]
  · intro env sig target
    rw [Apply_consults, Resolve_init_consults]

/-! Section: Claims C5 and C4 -/

theorem Resolve_resolved_noop (env : Hdr.Env) (p : Hdr.RelocPatch)
    (h : p.real_address ≠ 0) :
    Hdr.RelocPatch.Resolve env p = ⟨p, 0, none⟩ := by
  unfold Hdr.RelocPatch.Resolve
  simp [h]

theorem Resolve_success_real_ne (env : Hdr.Env) (p : Hdr.RelocPatch)
    (h : (Hdr.RelocPatch.Resolve env p).fault = none) :
    (Hdr.RelocPatch.Resolve env p).state.real_address ≠ 0 := by
  unfold Hdr.RelocPatch.Resolve at h ⊢
  split at h
  · simp_all
  · dsimp only at h ⊢
    split at h <;> simp_all

theorem Resolve_state_sig (env : Hdr.Env) (p : Hdr.RelocPatch) :
    (Hdr.RelocPatch.Resolve env p).state.sig = p.sig := by
  unfold Hdr.RelocPatch.Resolve
  split
  · rfl
  · dsimp only
    split <;> rfl

theorem Resolve_consults_le_one (env : Hdr.Env) (p : Hdr.RelocPatch) :
    (Hdr.RelocPatch.Resolve env p).consults ≤ 1 := by
  unfold Hdr.RelocPatch.Resolve
  split
  · simp
  · dsimp only
    split <;> simp

/-- Claim C5: resolution is idempotent and memoized.  A first successful
`Resolve` consults the scanner collaborator at most once; a second
`Resolve` on the resulting state is a no-op that consults the
collaborator zero times, faults never, and returns the state — hence the
cached address — completely unchanged. -/
theorem c5_resolve_idempotent (env env2 : Hdr.Env) (p : Hdr.RelocPatch)
    (h : (Hdr.RelocPatch.Resolve env p).fault = none) :
    (Hdr.RelocPatch.Resolve env p).consults ≤ 1 ∧
    Hdr.RelocPatch.Resolve env2 (Hdr.RelocPatch.Resolve env p).state =
      ⟨(Hdr.RelocPatch.Resolve env p).state, 0, none⟩ := by
  exact ⟨Resolve_consults_le_one env p,
    Resolve_resolved_noop env2 _ (Resolve_success_real_ne env p h)⟩

/-- Claim C5 witness: the theorem applied to a concrete scanner
environment and a concrete fresh patch. -/
theorem c5_resolve_idempotent_witness :
    (Hdr.RelocPatch.Resolve
        ⟨fun _ _ _ _ _ => 0x2000, fun _ _ => true, fun _ _ => true,
         fun _ _ => true, fun _ _ => true, fun _ _ => true, fun _ _ => true⟩
        (Hdr.RelocPatch.init
          ⟨"h", Hdr.HookType.Branch6, "AA BB", 7, 3, 0, 0⟩)).consults ≤ 1 ∧
    Hdr.RelocPatch.Resolve
        ⟨fun _ _ _ _ _ => 0x2000, fun _ _ => true, fun _ _ => true,
         fun _ _ => true, fun _ _ => true, fun _ _ => true, fun _ _ => true⟩
        (Hdr.RelocPatch.Resolve
          ⟨fun _ _ _ _ _ => 0x2000, fun _ _ => true, fun _ _ => true,
           fun _ _ => true, fun _ _ => true, fun _ _ => true, fun _ _ => true⟩
          (Hdr.RelocPatch.init
            ⟨"h", Hdr.HookType.Branch6, "AA BB", 7, 3, 0, 0⟩)).state =
      ⟨(Hdr.RelocPatch.Resolve
          ⟨fun _ _ _ _ _ => 0x2000, fun _ _ => true, fun _ _ => true,
           fun _ _ => true, fun _ _ => true, fun _ _ => true, fun _ _ => true⟩
          (Hdr.RelocPatch.init
            ⟨"h", Hdr.HookType.Branch6, "AA BB", 7, 3, 0, 0⟩)).state, 0, none⟩ :=
  c5_resolve_idempotent _ _ _ (by decide)

theorem Apply_success_state (env : Hdr.Env) (p : Hdr.RelocPatch) (target : Nat)
    (h : (Hdr.RelocPatch.Apply env p target).fault = none) :
    (Hdr.RelocPatch.Apply env p target).state.hook_done = true ∧
    (Hdr.RelocPatch.Apply env p target).state.real_address ≠ 0 ∧
    (Hdr.RelocPatch.Apply env p target).state.sig = p.sig ∧
    Hdr.HookType.Size p.sig.hook_type ≠ none := by
  have hsig := Resolve_state_sig env p
  unfold Hdr.RelocPatch.Apply at h ⊢
  rcases hf : (Hdr.RelocPatch.Resolve env p).fault with _ | f
  · have hne := Resolve_success_real_ne env p hf
    simp only [hf] at h ⊢
    rcases hs : Hdr.HookType.Size (Hdr.RelocPatch.Resolve env p).state.sig.hook_type
      with _ | n
    · simp [hs] at h
    · simp only [hs] at h ⊢
      split at h
      · simp at h
      · split at h
        · rcases hi : Hdr.installHookH env
            (Hdr.RelocPatch.Resolve env p).state.sig.hook_type
            (Hdr.RelocPatch.Resolve env p).state.real_address target
            with ⟨hevs, _ | f2⟩
          · simp_all
          · simp [hi] at h
        · simp at h
  · simp [hf] at h

/-- Claim C4: installation is single-shot.  After a completed (fault-free)
`Apply`, a second `Apply` on the resulting state — with any environment
and any target — trips the `ASSERT(!hook_done)` programming-error fault,
issues no memory-write events, consults nothing, and leaves the state
unchanged. -/
theorem c4_apply_single_shot (env env2 : Hdr.Env) (p : Hdr.RelocPatch)
    (target target2 : Nat)
    (h : (Hdr.RelocPatch.Apply env p target).fault = none) :
    Hdr.RelocPatch.Apply env2 (Hdr.RelocPatch.Apply env p target).state target2 =
      ⟨(Hdr.RelocPatch.Apply env p target).state, [], 0,
       some Fault.alreadyApplied⟩ := by
  obtain ⟨hdone, hne, hsig, hsz⟩ := Apply_success_state env p target h
  rcases hs : Hdr.HookType.Size p.sig.hook_type with _ | n
  · exact absurd hs hsz
  generalize hq : (Hdr.RelocPatch.Apply env p target).state = q at hdone hne hsig ⊢
  unfold Hdr.RelocPatch.Apply
  rw [Resolve_resolved_noop env2 q hne]
  simp only [hsig, hs, hdone]
  rfl

/-- A concrete scanner environment, used by witnesses. -/
def envW : Hdr.Env :=
  ⟨fun _ _ _ _ _ => 0x2000, fun _ _ => true, fun _ _ => true, fun _ _ => true,
   fun _ _ => true, fun _ _ => true, fun _ _ => true⟩

/-- A concrete patch signature, used by witnesses. -/
def patchW : Hdr.PatchSignature :=
  ⟨"ModifyPerkPool", Hdr.HookType.Branch6, "48 85 C0", 7, 0x62, 0, 0⟩

/-- Claim C4 witness: the theorem applied to a concrete first `Apply`,
discharging its success hypothesis by evaluation. -/
theorem c4_apply_single_shot_witness :
    Hdr.RelocPatch.Apply envW
        (Hdr.RelocPatch.Apply envW (Hdr.RelocPatch.init patchW) 77).state 66 =
      ⟨(Hdr.RelocPatch.Apply envW (Hdr.RelocPatch.init patchW) 77).state, [], 0,
       some Fault.alreadyApplied⟩ :=
  c4_apply_single_shot envW envW (Hdr.RelocPatch.init patchW) 77 66 (by decide)

/-! Section: Flow-A helpers -/

theorem applySig_eq_of_checks (env : Cpp.Env) (sig : Cpp.CodeSignature)
    (hdb : ¬ env.db sig.id = 0)
    (hsz : Cpp.HookType.Size sig.hook_type ≤ sig.patch_size)
    (hhk : (sig.hook = 0) ↔
      (sig.hook_type = Cpp.HookType.None ∨ sig.hook_type = Cpp.HookType.Nop)) :
    Cpp.applySig env sig =
      (match Cpp.trampolineStep sig
          ((Cpp.realAddress env sig + Cpp.HookType.Size sig.hook_type) % 2 ^ 64) with
       | (tevs, some f) => (tevs, some f)
       | (tevs, none) =>
         match Cpp.installHook env sig (Cpp.realAddress env sig) with
         | (hevs, some f) => (tevs ++ hevs, some f)
         | (hevs, none) =>
           (tevs ++ hevs ++
             [Event.memset
               ((Cpp.realAddress env sig + Cpp.HookType.Size sig.hook_type) % 2 ^ 64)
               kNop (sig.patch_size - Cpp.HookType.Size sig.hook_type)],
            none)) := by
  unfold Cpp.applySig
  dsimp only
  rw [if_neg hdb, if_pos hsz, if_pos hhk]

theorem realAddress_mkObject (env : Cpp.Env) (name : String) (id slot : Nat) :
    Cpp.realAddress env (Cpp.CodeSignature.mkObject name id slot) =
      env.db id % 2 ^ 64 := by
  unfold Cpp.realAddress Cpp.CodeSignature.mkObject
  simp [wrap64_natCast]

/-- Claim C7: for a `None`-type descriptor (the game-object constructor),
installation touches no executable memory — the hook switch's `None`
case only stores the resolved address into `resultSlot`, and the NOP
fill covers `patch_size - hook_size = 0 - 0 = 0` bytes — so the trace
writes zero executable bytes and its only slot effect is
`resultSlot = resolvedAddress`. -/
theorem c7_none_pure_discovery (env : Cpp.Env) (name : String) (id slot : Nat)
    (h : ¬ env.db id = 0) :
    Cpp.applySig env (Cpp.CodeSignature.mkObject name id slot) =
      ([Event.writeResult slot (env.db id % 2 ^ 64),
        Event.memset (env.db id % 2 ^ 64) kNop 0], none) ∧
    execBytesWritten
      (Cpp.applySig env (Cpp.CodeSignature.mkObject name id slot)).1 = 0 := by
  have hmain : Cpp.applySig env (Cpp.CodeSignature.mkObject name id slot) =
      ([Event.writeResult slot (env.db id % 2 ^ 64),
        Event.memset (env.db id % 2 ^ 64) kNop 0], none) := by
    rw [applySig_eq_of_checks env _ (by simpa [Cpp.CodeSignature.mkObject] using h)
      (by simp [Cpp.CodeSignature.mkObject, Cpp.HookType.Size])
      (by simp [Cpp.CodeSignature.mkObject])]
    rw [realAddress_mkObject]
    unfold Cpp.trampolineStep Cpp.installHook Cpp.CodeSignature.mkObject
    simp [Cpp.HookType.Size, Nat.mod_mod_of_dvd, Nat.mod_self,
      Nat.mod_eq_of_lt (Nat.mod_lt _ (by positivity))]
  refine ⟨hmain, ?_⟩
  rw [hmain]
  simp [execBytesWritten, Event.execBytes]

/-- A concrete database/write environment, used by witnesses. -/
def envWA : Cpp.Env :=
  ⟨fun _ => 0x1000, fun _ _ => true, fun _ _ => true, fun _ _ => true,
   fun _ _ => true, fun _ _ => true, fun _ _ => true⟩

/-- Claim C7 witness: the theorem applied to a concrete environment and
the table's `g_thePlayer` object signature. -/
theorem c7_none_pure_discovery_witness :
    Cpp.applySig envWA
        (Cpp.CodeSignature.mkObject "g_thePlayer" 403521 Cpp.playerObject) =
      ([Event.writeResult Cpp.playerObject (envWA.db 403521 % 2 ^ 64),
        Event.memset (envWA.db 403521 % 2 ^ 64) kNop 0], none) ∧
    execBytesWritten
      (Cpp.applySig envWA
        (Cpp.CodeSignature.mkObject "g_thePlayer" 403521 Cpp.playerObject)).1 = 0 :=
  c7_none_pure_discovery envWA "g_thePlayer" 403521 Cpp.playerObject (by decide)

theorem trampolineStep_present (sig : Cpp.CodeSignature) (slot ra : Nat)
    (h : sig.return_trampoline = some slot)
    (hf : (Cpp.trampolineStep sig ra).2 = none) :
    ¬ sig.hook_type = Cpp.HookType.None ∧ ¬ sig.hook_type = Cpp.HookType.Nop ∧
    (Cpp.trampolineStep sig ra).1 = [Event.writeSlot slot ra] := by
  unfold Cpp.trampolineStep at hf ⊢
  rw [h] at hf ⊢
  by_cases h1 : sig.hook_type = Cpp.HookType.None
  · simp [h1] at hf
  · by_cases h2 : sig.hook_type = Cpp.HookType.Nop
    · simp [h1, h2] at hf
    · simp [h1, h2]

theorem installHook_injectable (env : Cpp.Env) (sig : Cpp.CodeSignature)
    (real : Nat)
    (h1 : ¬ sig.hook_type = Cpp.HookType.None)
    (h2 : ¬ sig.hook_type = Cpp.HookType.Nop) :
    ∃ e : Event, e.isHookWrite = true ∧
      (Cpp.installHook env sig real).1 = [e] := by
  unfold Cpp.installHook
  cases h : sig.hook_type <;> simp_all [writeStep, Event.isHookWrite]

theorem applySig_success (env : Cpp.Env) (sig : Cpp.CodeSignature)
    (h : (Cpp.applySig env sig).2 = none) :
    ¬ env.db sig.id = 0 ∧
    Cpp.HookType.Size sig.hook_type ≤ sig.patch_size ∧
    ((sig.hook = 0) ↔
      (sig.hook_type = Cpp.HookType.None ∨ sig.hook_type = Cpp.HookType.Nop)) ∧
    (Cpp.trampolineStep sig
      ((Cpp.realAddress env sig + Cpp.HookType.Size sig.hook_type) % 2 ^ 64)).2 = none ∧
    (Cpp.installHook env sig (Cpp.realAddress env sig)).2 = none ∧
    (Cpp.applySig env sig).1 =
      (Cpp.trampolineStep sig
        ((Cpp.realAddress env sig + Cpp.HookType.Size sig.hook_type) % 2 ^ 64)).1 ++
      (Cpp.installHook env sig (Cpp.realAddress env sig)).1 ++
      [Event.memset
        ((Cpp.realAddress env sig + Cpp.HookType.Size sig.hook_type) % 2 ^ 64)
        kNop (sig.patch_size - Cpp.HookType.Size sig.hook_type)] := by
  by_cases hdb : env.db sig.id = 0
  · unfold Cpp.applySig at h
    dsimp only at h
    rw [if_pos hdb] at h
    simp at h
  by_cases hsz : Cpp.HookType.Size sig.hook_type ≤ sig.patch_size
  case neg =>
    unfold Cpp.applySig at h
    dsimp only at h
    rw [if_neg hdb, if_neg hsz] at h
    simp at h
  by_cases hhk : (sig.hook = 0) ↔
      (sig.hook_type = Cpp.HookType.None ∨ sig.hook_type = Cpp.HookType.Nop)
  case neg =>
    unfold Cpp.applySig at h
    dsimp only at h
    rw [if_neg hdb, if_pos hsz, if_neg hhk] at h
    simp at h
  rw [applySig_eq_of_checks env sig hdb hsz hhk] at h ⊢
  rcases ht : Cpp.trampolineStep sig
      ((Cpp.realAddress env sig + Cpp.HookType.Size sig.hook_type) % 2 ^ 64)
    with ⟨tevs, _ | tf⟩
  · rcases hi : Cpp.installHook env sig (Cpp.realAddress env sig)
      with ⟨hevs, _ | hf2⟩
    · exact ⟨hdb, hsz, hhk, rfl, rfl, rfl⟩
    · rw [ht] at h
      dsimp only at h
      rw [hi] at h
      simp at h
  · rw [ht] at h
    simp at h

/-- Claim C1: for a descriptor with a present return trampoline whose
installation completes, the very first event of the install trace writes
`resolvedAddress + Footprint(hookType)` into the trampoline slot; the
hook branch/call write is the second event and the NOP fill the third,
so the slot is populated strictly before any hook byte reaches
executable memory. -/
theorem c1_return_slot_before_hook (env : Cpp.Env) (sig : Cpp.CodeSignature)
    (slot : Nat)
    (hslot : sig.return_trampoline = some slot)
    (hok : (Cpp.applySig env sig).2 = none)
    (hnf : Cpp.realAddress env sig + Cpp.HookType.Size sig.hook_type < 2 ^ 64) :
    ∃ e : Event, e.isHookWrite = true ∧
      (Cpp.applySig env sig).1 =
        [Event.writeSlot slot
          (Cpp.realAddress env sig + Cpp.HookType.Size sig.hook_type),
         e,
         Event.memset
           (Cpp.realAddress env sig + Cpp.HookType.Size sig.hook_type) kNop
           (sig.patch_size - Cpp.HookType.Size sig.hook_type)] := by
  obtain ⟨hdb, hsz, hhk, htr, hin, heq⟩ := applySig_success env sig hok
  obtain ⟨h1, h2, htev⟩ := trampolineStep_present sig slot _ hslot htr
  obtain ⟨e, he, hiev⟩ := installHook_injectable env sig _ h1 h2
  refine ⟨e, he, ?_⟩
  rw [heq, htev, hiev, Nat.mod_eq_of_lt hnf]
  rfl

/-- Claim C1 witness: the theorem applied to a concrete environment and
a concrete trampoline-bearing descriptor (the `HideLegendaryButton`
shape), discharging all hypotheses by evaluation. -/
theorem c1_return_slot_before_hook_witness :
    ∃ e : Event, e.isHookWrite = true ∧
      (Cpp.applySig envWA
        (Cpp.CodeSignature.mkPatch "HideLegendaryButton" Cpp.HookType.Jump6 1
          52527 0x1e (some Cpp.HideLegendaryButton_ReturnTrampoline) 0x153)).1 =
        [Event.writeSlot Cpp.HideLegendaryButton_ReturnTrampoline
          (Cpp.realAddress envWA
            (Cpp.CodeSignature.mkPatch "HideLegendaryButton" Cpp.HookType.Jump6 1
              52527 0x1e (some Cpp.HideLegendaryButton_ReturnTrampoline) 0x153) +
           Cpp.HookType.Size Cpp.HookType.Jump6),
         e,
         Event.memset
           (Cpp.realAddress envWA
             (Cpp.CodeSignature.mkPatch "HideLegendaryButton" Cpp.HookType.Jump6 1
               52527 0x1e (some Cpp.HideLegendaryButton_ReturnTrampoline) 0x153) +
            Cpp.HookType.Size Cpp.HookType.Jump6) kNop
           (0x1e - Cpp.HookType.Size Cpp.HookType.Jump6)] :=
  c1_return_slot_before_hook envWA
    (Cpp.CodeSignature.mkPatch "HideLegendaryButton" Cpp.HookType.Jump6 1
      52527 0x1e (some Cpp.HideLegendaryButton_ReturnTrampoline) 0x153)
    Cpp.HideLegendaryButton_ReturnTrampoline rfl (by decide) (by decide)

/-! Section: Claim C3 -/

theorem realAddress_lt (env : Cpp.Env) (sig : Cpp.CodeSignature) :
    Cpp.realAddress env sig < 2 ^ 64 := by
  unfold Cpp.realAddress
  exact wrap64_lt _

theorem trampolineStep_nop (sig : Cpp.CodeSignature) (ra : Nat)
    (hN : sig.hook_type = Cpp.HookType.Nop)
    (hf : (Cpp.trampolineStep sig ra).2 = none) :
    (Cpp.trampolineStep sig ra).1 = [] := by
  unfold Cpp.trampolineStep at hf ⊢
  rcases h : sig.return_trampoline with _ | slot
  · rfl
  · simp [hN, h] at hf

theorem installHook_nop (env : Cpp.Env) (sig : Cpp.CodeSignature) (real : Nat)
    (hN : sig.hook_type = Cpp.HookType.Nop) :
    Cpp.installHook env sig real = ([], none) := by
  unfold Cpp.installHook
  rw [hN]

theorem installHookH_nop (env : Hdr.Env) (real target : Nat) :
    Hdr.installHookH env Hdr.HookType.Nop real target = ([], none) := rfl

theorem Apply_eq_success (env : Hdr.Env) (p : Hdr.RelocPatch) (target n : Nat)
    (hevs : List Event)
    (hf : (Hdr.RelocPatch.Resolve env p).fault = none)
    (hs : Hdr.HookType.Size p.sig.hook_type = some n)
    (hdone : (Hdr.RelocPatch.Resolve env p).state.hook_done = false)
    (hle : n ≤ p.sig.patch_size)
    (hi : Hdr.installHookH env p.sig.hook_type
      (Hdr.RelocPatch.Resolve env p).state.real_address target = (hevs, none)) :
    Hdr.RelocPatch.Apply env p target =
      ⟨{ (Hdr.RelocPatch.Resolve env p).state with hook_done := true },
       hevs ++ [Event.memset
         (((Hdr.RelocPatch.Resolve env p).state.real_address + n) % 2 ^ 64)
         kNop (p.sig.patch_size - n)],
       (Hdr.RelocPatch.Resolve env p).consults, none⟩ := by
  have hsig := Resolve_state_sig env p
  unfold Hdr.RelocPatch.Apply
  simp only [hf, hsig, hs, hdone, Bool.false_eq_true, if_false, if_pos hle, hi]

theorem Apply_success_full (env : Hdr.Env) (p : Hdr.RelocPatch) (target : Nat)
    (h : (Hdr.RelocPatch.Apply env p target).fault = none) :
    ∃ (n : Nat) (hevs : List Event),
      (Hdr.RelocPatch.Resolve env p).fault = none ∧
      Hdr.HookType.Size p.sig.hook_type = some n ∧
      (Hdr.RelocPatch.Resolve env p).state.hook_done = false ∧
      n ≤ p.sig.patch_size ∧
      Hdr.installHookH env p.sig.hook_type
        (Hdr.RelocPatch.Resolve env p).state.real_address target = (hevs, none) ∧
      Hdr.RelocPatch.Apply env p target =
        ⟨{ (Hdr.RelocPatch.Resolve env p).state with hook_done := true },
         hevs ++ [Event.memset
           (((Hdr.RelocPatch.Resolve env p).state.real_address + n) % 2 ^ 64)
           kNop (p.sig.patch_size - n)],
         (Hdr.RelocPatch.Resolve env p).consults, none⟩ := by
  have hsig := Resolve_state_sig env p
  unfold Hdr.RelocPatch.Apply at h
  rcases hf : (Hdr.RelocPatch.Resolve env p).fault with _ | f
  · simp only [hf, hsig] at h
    rcases hs : Hdr.HookType.Size p.sig.hook_type with _ | n
    · simp [hs] at h
    · simp only [hs] at h
      cases hdone : (Hdr.RelocPatch.Resolve env p).state.hook_done
      · simp only [hdone, Bool.false_eq_true, if_false] at h
        by_cases hle : n ≤ p.sig.patch_size
        · simp only [if_pos hle] at h
          rcases hi : Hdr.installHookH env p.sig.hook_type
              (Hdr.RelocPatch.Resolve env p).state.real_address target
            with ⟨hevs, _ | f2⟩
          · exact ⟨n, hevs, rfl, rfl, rfl, hle, rfl,
              Apply_eq_success env p target n hevs hf hs hdone hle hi⟩
          · rw [hi] at h
            simp at h
        · simp [if_neg hle] at h
      · simp [hdone] at h
  · simp [hf] at h

/-- Claim C3: every completed installation ends with a NOP fill of
exactly `patch_size - Footprint(hook_type)` bytes starting at
`resolvedAddress + Footprint(hook_type)`, in both the orchestrator loop
(`RelocPatch.cpp`) and `RelocPatch::Apply` (`RelocPatch.h`); for a
`Nop`-type descriptor the footprint is 0, so the whole `patch_size`
window is NOP-filled and no branch/call write primitive is invoked. -/
theorem c3_nop_padding :
    (∀ (env : Cpp.Env) (sig : Cpp.CodeSignature),
      (Cpp.applySig env sig).2 = none →
      (∃ pre, (Cpp.applySig env sig).1 = pre ++
        [Event.memset
          ((Cpp.realAddress env sig + Cpp.HookType.Size sig.hook_type) % 2 ^ 64)
          kNop (sig.patch_size - Cpp.HookType.Size sig.hook_type)]) ∧
      (sig.hook_type = Cpp.HookType.Nop →
        (Cpp.applySig env sig).1 =
          [Event.memset (Cpp.realAddress env sig) kNop sig.patch_size] ∧
        ∀ e ∈ (Cpp.applySig env sig).1, e.isHookWrite = false)) ∧
    (∀ (env : Hdr.Env) (p : Hdr.RelocPatch) (target n : Nat),
      Hdr.HookType.Size p.sig.hook_type = some n →
      (Hdr.RelocPatch.Apply env p target).fault = none →
      (∃ pre, (Hdr.RelocPatch.Apply env p target).events = pre ++
        [Event.memset
          (((Hdr.RelocPatch.Resolve env p).state.real_address + n) % 2 ^ 64)
          kNop (p.sig.patch_size - n)]) ∧
      (p.sig.hook_type = Hdr.HookType.Nop →
        (Hdr.RelocPatch.Apply env p target).events =
          [Event.memset
            ((Hdr.RelocPatch.Resolve env p).state.real_address % 2 ^ 64)
            kNop p.sig.patch_size] ∧
        ∀ e ∈ (Hdr.RelocPatch.Apply env p target).events,
          e.isHookWrite = false)) := by
  constructor
  · intro env sig hok
    obtain ⟨hdb, hsz, hhk, htr, hin, heq⟩ := applySig_success env sig hok
    constructor
    · exact ⟨(Cpp.trampolineStep sig _).1 ++ (Cpp.installHook env sig _).1,
        by rw [heq, List.append_assoc]⟩
    · intro hN
      have h1 := trampolineStep_nop sig _ hN htr
      have h2 := installHook_nop env sig (Cpp.realAddress env sig) hN
      rw [heq, h1, h2, hN]
      have hra : (Cpp.realAddress env sig + Cpp.HookType.Size Cpp.HookType.Nop)
          % 2 ^ 64 = Cpp.realAddress env sig := by
        show (Cpp.realAddress env sig + 0) % 2 ^ 64 = Cpp.realAddress env sig
        rw [Nat.add_zero, Nat.mod_eq_of_lt (realAddress_lt env sig)]
      rw [hra]
      constructor
      · show [Event.memset _ kNop (sig.patch_size - Cpp.HookType.Size Cpp.HookType.Nop)] = _
        show [Event.memset _ kNop (sig.patch_size - 0)] = _
        rw [Nat.sub_zero]
      · intro e he
        simp at he
        rw [he]
        rfl
  · intro env p target n hs hok
    obtain ⟨n2, hevs, hf, hs2, hdone, hle, hi, heq⟩ := Apply_success_full env p target hok
    have hn : n2 = n := by rw [hs] at hs2; exact (Option.some_inj.mp hs2).symm
    subst hn
    constructor
    · exact ⟨hevs, by rw [heq]⟩
    · intro hN
      have hz : n2 = 0 := by
        rw [hN] at hs2
        exact Option.some_inj.mp hs2.symm
      rw [hN] at hi
      rw [installHookH_nop] at hi
      have hevs0 : hevs = [] := (congrArg Prod.fst hi).symm
      rw [heq, hevs0, hz]
      constructor
      · rw [Nat.add_zero, Nat.sub_zero]
        rfl
      · intro e he
        simp at he
        rw [he]
        rfl

/-- A concrete `Nop`-type header patch, used by witnesses. -/
def patchNopW : Hdr.PatchSignature :=
  ⟨"AllowAllAttrImproveCarryWeight", Hdr.HookType.Nop, "90 90", 2, 0x9a, 0, 0⟩

/-- Claim C3 witness: both parts of the theorem applied at concrete
inputs — the table's `Nop`-type `AllowAllAttrImproveCarryWeight`
signature in the orchestrator flow, and a concrete `Nop` patch in the
header flow — with all hypotheses discharged by evaluation. -/
theorem c3_nop_padding_witness :
    ((∃ pre, (Cpp.applySig envWA Cpp.kAllowAllAttrImproveCarryWeight_PatchSig).1 =
        pre ++
        [Event.memset
          ((Cpp.realAddress envWA Cpp.kAllowAllAttrImproveCarryWeight_PatchSig +
            Cpp.HookType.Size
              Cpp.kAllowAllAttrImproveCarryWeight_PatchSig.hook_type) % 2 ^ 64)
          kNop
          (Cpp.kAllowAllAttrImproveCarryWeight_PatchSig.patch_size -
            Cpp.HookType.Size
              Cpp.kAllowAllAttrImproveCarryWeight_PatchSig.hook_type)]) ∧
      (Cpp.kAllowAllAttrImproveCarryWeight_PatchSig.hook_type = Cpp.HookType.Nop →
        (Cpp.applySig envWA Cpp.kAllowAllAttrImproveCarryWeight_PatchSig).1 =
          [Event.memset
            (Cpp.realAddress envWA Cpp.kAllowAllAttrImproveCarryWeight_PatchSig)
            kNop Cpp.kAllowAllAttrImproveCarryWeight_PatchSig.patch_size] ∧
        ∀ e ∈ (Cpp.applySig envWA Cpp.kAllowAllAttrImproveCarryWeight_PatchSig).1,
          e.isHookWrite = false)) ∧
    ((∃ pre,
        (Hdr.RelocPatch.Apply envW (Hdr.RelocPatch.init patchNopW) 0).events =
        pre ++
        [Event.memset
          (((Hdr.RelocPatch.Resolve envW
              (Hdr.RelocPatch.init patchNopW)).state.real_address + 0) % 2 ^ 64)
          kNop (patchNopW.patch_size - 0)]) ∧
      (patchNopW.hook_type = Hdr.HookType.Nop →
        (Hdr.RelocPatch.Apply envW (Hdr.RelocPatch.init patchNopW) 0).events =
          [Event.memset
            ((Hdr.RelocPatch.Resolve envW
               (Hdr.RelocPatch.init patchNopW)).state.real_address % 2 ^ 64)
            kNop patchNopW.patch_size] ∧
        ∀ e ∈ (Hdr.RelocPatch.Apply envW (Hdr.RelocPatch.init patchNopW) 0).events,
          e.isHookWrite = false)) :=
  ⟨c3_nop_padding.1 envWA Cpp.kAllowAllAttrImproveCarryWeight_PatchSig (by decide),
   c3_nop_padding.2 envW (Hdr.RelocPatch.init patchNopW) 0 0 rfl (by decide)⟩

/-! Section: Claims C9, C8, C6 -/

/-- Claim C9: the `hook_size <= patch_size` assertion is a fatal guard
hit before any memory write.  In both flows, a descriptor whose
footprint exceeds its reserved patch size produces a fault with an
empty event trace — it is never even partially installed — and in the
orchestrator flow (once resolution succeeded) the fault is precisely
the size assertion. -/
theorem c9_footprint_guard :
    (∀ (env : Cpp.Env) (sig : Cpp.CodeSignature),
      sig.patch_size < Cpp.HookType.Size sig.hook_type →
      (Cpp.applySig env sig).1 = [] ∧
      (Cpp.applySig env sig).2.isSome = true ∧
      (¬ env.db sig.id = 0 →
        Cpp.applySig env sig = ([], some Fault.sizeAssert))) ∧
    (∀ (env : Hdr.Env) (p : Hdr.RelocPatch) (target n : Nat),
      Hdr.HookType.Size p.sig.hook_type = some n →
      p.sig.patch_size < n →
      (Hdr.RelocPatch.Apply env p target).events = [] ∧
      (Hdr.RelocPatch.Apply env p target).fault.isSome = true) := by
  constructor
  · intro env sig hlt
    unfold Cpp.applySig
    dsimp only
    by_cases hdb : env.db sig.id = 0
    · rw [if_pos hdb]
      exact ⟨rfl, rfl, fun hc => absurd hdb hc⟩
    · rw [if_neg hdb, if_neg (Nat.not_le.mpr hlt)]
      exact ⟨rfl, rfl, fun _ => rfl⟩
  · intro env p target n hs hlt
    have hsig := Resolve_state_sig env p
    unfold Hdr.RelocPatch.Apply
    rcases hf : (Hdr.RelocPatch.Resolve env p).fault with _ | f
    · simp only [hf, hsig, hs]
      cases hdone : (Hdr.RelocPatch.Resolve env p).state.hook_done
      · simp only [hdone, Bool.false_eq_true, if_false,
          if_neg (Nat.not_le.mpr hlt)]
        exact ⟨by trivial, by trivial⟩
      · simp only [hdone, if_true]
        exact ⟨by trivial, by trivial⟩
    · simp only [hf]
      exact ⟨by trivial, by trivial⟩

/-- Claim C9 witness: both parts applied to concrete under-sized
descriptors (footprint 6, reserved size 3), hypotheses discharged by
evaluation. -/
theorem c9_footprint_guard_witness :
    ((Cpp.applySig envWA
        (Cpp.CodeSignature.mkPatch "bad" Cpp.HookType.Jump6 1 99 3 none 0)).1 = [] ∧
     (Cpp.applySig envWA
        (Cpp.CodeSignature.mkPatch "bad" Cpp.HookType.Jump6 1 99 3 none 0)).2.isSome = true ∧
     (¬ envWA.db 99 = 0 →
       Cpp.applySig envWA
         (Cpp.CodeSignature.mkPatch "bad" Cpp.HookType.Jump6 1 99 3 none 0) =
         ([], some Fault.sizeAssert))) ∧
    ((Hdr.RelocPatch.Apply envW
        (Hdr.RelocPatch.init ⟨"bad", Hdr.HookType.Branch6, "AA", 3, 0, 0, 0⟩)
        7).events = [] ∧
     (Hdr.RelocPatch.Apply envW
        (Hdr.RelocPatch.init ⟨"bad", Hdr.HookType.Branch6, "AA", 3, 0, 0, 0⟩)
        7).fault.isSome = true) :=
  ⟨c9_footprint_guard.1 envWA
     (Cpp.CodeSignature.mkPatch "bad" Cpp.HookType.Jump6 1 99 3 none 0)
     (by decide),
   c9_footprint_guard.2 envW
     (Hdr.RelocPatch.init ⟨"bad", Hdr.HookType.Branch6, "AA", 3, 0, 0, 0⟩)
     7 6 rfl (by decide)⟩

/-- Claim C8: in the descriptor table, a hook target is present (non-null)
exactly for hook types other than `None`/`Nop` (given that C++ function
addresses are non-null), and the orchestrator's
`ASSERT(!(sig->hook) == (hook_type == None || hook_type == Nop))` makes
installation of any violating descriptor fault before any memory-write
event is issued. -/
theorem c8_hook_presence :
    (∀ hooks : Cpp.Hooks, hooks.NonNull →
      ∀ sig ∈ Cpp.kGameSignatures hooks,
        (¬ sig.hook = 0 ↔
          ¬ (sig.hook_type = Cpp.HookType.None ∨
             sig.hook_type = Cpp.HookType.Nop))) ∧
    (∀ (env : Cpp.Env) (sig : Cpp.CodeSignature),
      ¬ ((sig.hook = 0) ↔
        (sig.hook_type = Cpp.HookType.None ∨ sig.hook_type = Cpp.HookType.Nop)) →
      (Cpp.applySig env sig).1 = [] ∧
      (Cpp.applySig env sig).2.isSome = true) := by
  constructor
  · intro hooks hnn sig hsig
    obtain ⟨h1, h2, h3, h4, h5, h6, h7, h8, h9⟩ := hnn
    unfold Cpp.kGameSignatures at hsig
    fin_cases hsig <;>
      simp_all [Cpp.kThePlayer_ObjectSig, Cpp.kGameSettingCollection_ObjectSig,
        Cpp.kGetLevel_FunctionSig, Cpp.kGetBaseActorValue_FunctionSig,
        Cpp.kGetSkillCoefficients_FunctionSig, Cpp.kModifyPerkPool_PatchSig,
        Cpp.kSkillCapPatch_PatchSig, Cpp.kHideLegendaryButton_PatchSig,
        Cpp.kImproveSkillLevel_PatchSig, Cpp.kImprovePlayerSkillPoints_PatchSig,
        Cpp.kImproveLevelExpBySkillLevel_PatchSig,
        Cpp.kImproveAttributeWhenLevelUp_PatchSig,
        Cpp.kGetEffectiveSkillLevel_PatchSig, Cpp.kDisplayTrueSkillLevel_PatchSig,
        Cpp.CodeSignature.mkObject, Cpp.CodeSignature.mkPatch]
  · intro env sig hbad
    unfold Cpp.applySig
    dsimp only
    by_cases hdb : env.db sig.id = 0
    · rw [if_pos hdb]
      exact ⟨rfl, rfl⟩
    · rw [if_neg hdb]
      by_cases hsz : Cpp.HookType.Size sig.hook_type ≤ sig.patch_size
      · rw [if_pos hsz, if_neg hbad]
        exact ⟨rfl, rfl⟩
      · rw [if_neg hsz]
        exact ⟨rfl, rfl⟩

/-- Concrete non-null hook addresses, used by witnesses. -/
def hooksW : Cpp.Hooks := ⟨1, 2, 3, 4, 5, 6, 7, 8, 9⟩

/-- Claim C8 witness: the table part applied at concrete non-null hook
addresses and the table's `ModifyPerkPool` entry, and the fault part
applied to a concrete violating descriptor (null hook with an
injectable hook type). -/
theorem c8_hook_presence_witness :
    (¬ (Cpp.kModifyPerkPool_PatchSig hooksW).hook = 0 ↔
      ¬ ((Cpp.kModifyPerkPool_PatchSig hooksW).hook_type = Cpp.HookType.None ∨
         (Cpp.kModifyPerkPool_PatchSig hooksW).hook_type = Cpp.HookType.Nop)) ∧
    ((Cpp.applySig envWA
        (Cpp.CodeSignature.mkPatch "bad" Cpp.HookType.Jump6 0 99 7 none 0)).1 = [] ∧
     (Cpp.applySig envWA
        (Cpp.CodeSignature.mkPatch "bad" Cpp.HookType.Jump6 0 99 7 none 0)).2.isSome
       = true) :=
  ⟨c8_hook_presence.1 hooksW (by unfold Cpp.Hooks.NonNull; decide)
     (Cpp.kModifyPerkPool_PatchSig hooksW) (by decide),
   c8_hook_presence.2 envWA
     (Cpp.CodeSignature.mkPatch "bad" Cpp.HookType.Jump6 0 99 7 none 0)
     (by decide)⟩

/-- Claim C6: the orchestrator processes the table in order and aborts on
the first fault.  If every descriptor before `sig` installs cleanly and
`sig` faults, the whole run's outcome is that fault together with
exactly the events of the preceding installs followed by the events
`sig` issued before faulting — independent of `post`, so no descriptor
after the failing one is resolved or installed, and nothing already
installed is rolled back. -/
theorem c6_abort_first_failure (env : Cpp.Env) (pre : List Cpp.CodeSignature)
    (sig : Cpp.CodeSignature) (post : List Cpp.CodeSignature) (f : Fault)
    (hpre : ∀ s ∈ pre, (Cpp.applySig env s).2 = none)
    (hsig : (Cpp.applySig env sig).2 = some f) :
    Cpp.applyList env (pre ++ sig :: post) =
      ((pre.map fun s => (Cpp.applySig env s).1).flatten ++ (Cpp.applySig env sig).1,
       some f) := by
  induction pre with
  | nil =>
    rcases h : Cpp.applySig env sig with ⟨evs, f2⟩
    rw [h] at hsig
    simp only at hsig
    subst hsig
    show Cpp.applyList env (sig :: post) = _
    unfold Cpp.applyList
    rw [h]
    simp
  | cons s pre ih =>
    have hs := hpre s (List.mem_cons_self s pre)
    have hpre2 : ∀ x ∈ pre, (Cpp.applySig env x).2 = none :=
      fun x hx => hpre x (List.mem_cons_of_mem s hx)
    have ih2 := ih hpre2
    rcases h0 : Cpp.applySig env s with ⟨evs0, f0⟩
    rw [h0] at hs
    simp only at hs
    subst hs
    show Cpp.applyList env (s :: (pre ++ sig :: post)) = _
    unfold Cpp.applyList
    rw [h0]
    dsimp only
    rw [ih2]
    simp [h0, List.append_assoc]

/-- An environment whose database knows every id except 2, used by the
claim C6 witness. -/
def envC6 : Cpp.Env :=
  ⟨fun i => if i = 2 then 0 else 0x1000, fun _ _ => true, fun _ _ => true,
   fun _ _ => true, fun _ _ => true, fun _ _ => true, fun _ _ => true⟩

/-- Claim C6 witness: a three-descriptor table whose second descriptor
fails to resolve; the theorem applied there, hypotheses discharged by
evaluation. -/
theorem c6_abort_first_failure_witness :
    Cpp.applyList envC6
        ([Cpp.CodeSignature.mkObject "a" 1 10] ++
          Cpp.CodeSignature.mkObject "b" 2 11 ::
          [Cpp.CodeSignature.mkObject "c" 3 12]) =
      (([Cpp.CodeSignature.mkObject "a" 1 10].map
          fun s => (Cpp.applySig envC6 s).1).flatten ++
        (Cpp.applySig envC6 (Cpp.CodeSignature.mkObject "b" 2 11)).1,
       some Fault.resolveFailed) :=
  c6_abort_first_failure envC6 [Cpp.CodeSignature.mkObject "a" 1 10]
    (Cpp.CodeSignature.mkObject "b" 2 11) [Cpp.CodeSignature.mkObject "c" 3 12]
    Fault.resolveFailed (by decide) (by decide)
